import Mathlib

/-!
Verification of the BGAI.nl bookkeeping backend (`main.py` / `schemas.py`).

Documents fetched from the Mongo-style store are modelled as records whose
fields are `Option`-valued (a `none` / `.absent` value models a key missing
from the stored document, since the handlers read them with `dict.get` and
an explicit default).  Python float arithmetic is idealised as exact
rational arithmetic over `ℚ`, and Python's `round(x, 2)` as
round-half-to-even at two decimal places.
-/

namespace BGAI

/-- The floor of a rational, written out on its reduced fraction. -/
def floorQ (q : ℚ) : ℤ := q.num / (q.den : ℤ)

/-- Round-half-to-even to an integer, the idealisation of Python's `round`
on a number with two extra decimal digits of scale: an exact half goes to
the even neighbour, anything else to the nearest integer. -/
def roundHalfEven (q : ℚ) : ℤ :=
  if q - floorQ q = 1/2 then (if floorQ q % 2 = 0 then floorQ q else floorQ q + 1)
  else floorQ (q + 1/2)

/-- Python's `round(x, 2)` idealised over `ℚ`. -/
def round2 (q : ℚ) : ℚ := (roundHalfEven (q * 100) : ℚ) / 100

/-- A value is a whole number of cents, i.e. has at most two decimal
places. -/
def Rounded2 (q : ℚ) : Prop := (q * 100).den = 1

/-- A calendar date as carried by an invoice/expense document. -/
structure SDate where
  year : ℤ
  month : ℕ
  day : ℕ
deriving DecidableEq

def isLeap (y : ℤ) : Bool := y % 4 = 0 && (y % 100 != 0 || y % 400 = 0)

def daysInMonth (y : ℤ) (m : ℕ) : ℕ :=
  if m = 2 then (if isLeap y then 29 else 28)
  else if m = 4 ∨ m = 6 ∨ m = 9 ∨ m = 11 then 30
  else 31

def allDigits (s : String) : Bool := s.all (·.isDigit)

/-- Python's `date.fromisoformat` on the `YYYY-MM-DD` form: three
dash-separated, zero-padded digit groups forming a valid calendar date;
any other input raises (modelled by `none`, since the caller catches the
exception and skips the document). -/
def fromisoformat (s : String) : Option SDate :=
  match s.splitOn "-" with
  | [ys, ms, ds] =>
    if ys.length = 4 ∧ ms.length = 2 ∧ ds.length = 2
        ∧ allDigits ys ∧ allDigits ms ∧ allDigits ds then
      match ys.toNat?, ms.toNat?, ds.toNat? with
      | some y, some m, some d =>
        if 1 ≤ m ∧ m ≤ 12 ∧ 1 ≤ d ∧ d ≤ daysInMonth (y : ℤ) m then
          some ⟨(y : ℤ), m, d⟩
        else none
      | _, _, _ => none
    else none
  | _ => none

/-- The raw content of a date field of a stored document: missing, a
`date` object, or a string. -/
inductive DateField where
  | absent
  | dateVal (d : SDate)
  | strVal (s : String)
deriving DecidableEq

/-- The date-resolution step of `monthly_report`: a `date` object is used
as is; a string is parsed with `date.fromisoformat` (a parse failure is an
exception caught by the per-document handler, hence `none`); anything else
is not a `date` instance and the document is skipped (`none`). -/
def resolveDate : DateField → Option SDate
  | .absent => none
  | .dateVal d => some d
  | .strVal s => fromisoformat s

/-- Helpers for `str(value or "")` applied to a date field, as used in the listing
sort keys: a missing field becomes `""`, a `date` its ISO text, a string
itself. -/
def pad2 (n : ℕ) : String := if n < 10 then "0" ++ toString n else toString n

def pad4 (n : ℕ) : String :=
  if n < 10 then "000" ++ toString n
  else if n < 100 then "00" ++ toString n
  else if n < 1000 then "0" ++ toString n
  else toString n

def isoStr (d : SDate) : String :=
  pad4 d.year.toNat ++ "-" ++ pad2 d.month ++ "-" ++ pad2 d.day

def dateFieldStr : DateField → String
  | .absent => ""
  | .dateVal d => isoStr d
  | .strVal s => s

/-- An invoice line-item document as read back from the store; every field
may be missing. -/
structure ItemDoc where
  quantity : Option ℚ
  unit_price : Option ℚ
  vat_rate : Option ℚ
deriving DecidableEq

/-- An invoice document as read back from the store. -/
structure InvoiceDoc where
  status : Option String
  items : List ItemDoc
  issue_date : DateField
  created_at : Option String
deriving DecidableEq

/-- An expense document as read back from the store. -/
structure ExpenseDoc where
  amount_ex_vat : Option ℚ
  vat_rate : Option ℚ
  expense_date : DateField
  created_at : Option String
deriving DecidableEq

/-- Models `float(it.get("quantity", 0)) * float(it.get("unit_price", 0))`. -/
def itemEx (it : ItemDoc) : ℚ := (it.quantity.getD 0) * (it.unit_price.getD 0)

/-- Models `line_ex * (float(it.get("vat_rate", 21)) / 100)`. -/
def itemVat (it : ItemDoc) : ℚ := itemEx it * ((it.vat_rate.getD 21) / 100)

/-- The `inv_ex` accumulation loop over `inv.get("items", [])`. -/
def invEx (inv : InvoiceDoc) : ℚ := inv.items.foldl (fun a it => a + itemEx it) 0

/-- The `inv_vat` accumulation loop over `inv.get("items", [])`. -/
def invVat (inv : InvoiceDoc) : ℚ := inv.items.foldl (fun a it => a + itemVat it) 0

/-- Models `float(ex.get("amount_ex_vat", 0)) * (float(ex.get("vat_rate", 21))/100)`. -/
def expenseVat (ex : ExpenseDoc) : ℚ :=
  (ex.amount_ex_vat.getD 0) * ((ex.vat_rate.getD 21) / 100)

/-- The `DashboardSummary` response shape. -/
structure DashboardSummary where
  revenue_ex_vat : ℚ
  revenue_vat : ℚ
  revenue_inc_vat : ℚ
  expenses_ex_vat : ℚ
  expenses_vat : ℚ
  expenses_inc_vat : ℚ
  open_invoices : ℕ
  paid_invoices : ℕ
deriving DecidableEq

/-- Handler of `GET /api/dashboard/summary`: the aggregation loops of
`get_dashboard_summary`, with the independent accumulators of the single
pass written as one fold each. -/
def get_dashboard_summary (invoices : List InvoiceDoc) (expenses : List ExpenseDoc) :
    DashboardSummary :=
  let revenue_ex_vat := invoices.foldl (fun a inv => a + invEx inv) 0
  let revenue_vat := invoices.foldl (fun a inv => a + invVat inv) 0
  let paid_invoices :=
    invoices.foldl (fun a inv => a + if inv.status = some "betaald" then 1 else 0) 0
  let open_invoices :=
    invoices.foldl (fun a inv => a + if inv.status = some "betaald" then 0 else 1) 0
  let expenses_ex_vat := expenses.foldl (fun a ex => a + ex.amount_ex_vat.getD 0) 0
  let expenses_vat := expenses.foldl (fun a ex => a + expenseVat ex) 0
  { revenue_ex_vat := round2 revenue_ex_vat
    revenue_vat := round2 revenue_vat
    revenue_inc_vat := round2 (revenue_ex_vat + revenue_vat)
    expenses_ex_vat := round2 expenses_ex_vat
    expenses_vat := round2 expenses_vat
    expenses_inc_vat := round2 (expenses_ex_vat + expenses_vat)
    open_invoices := open_invoices
    paid_invoices := paid_invoices }

/-- Models `limit: int = Query(20, ge=1, le=200)`: FastAPI validates the query
parameter against the declared bounds before the handler runs; `none`
models an absent parameter (the default applies). -/
def validateLimit (l : Option ℤ) : Except Unit ℤ :=
  match l with
  | none => .ok 20
  | some v => if 1 ≤ v ∧ v ≤ 200 then .ok v else .error ()

/-- The sort key of `list_invoices`:
`(str(x.get("created_at") or ""), str(x.get("issue_date") or ""))`,
compared as Python compares string pairs (lexicographically). -/
def sortKeyInvoice (x : InvoiceDoc) : Lex (String × String) :=
  toLex (x.created_at.getD "", dateFieldStr x.issue_date)

/-- The sort key of `list_expenses`. -/
def sortKeyExpense (x : ExpenseDoc) : Lex (String × String) :=
  toLex (x.created_at.getD "", dateFieldStr x.expense_date)

/-- Python's `items.sort(key=sort_key, reverse=True)` keeps `a` before `b` exactly
when `a`'s key is not below `b`'s (stable descending order). -/
def invoiceLe (a b : InvoiceDoc) : Bool := decide (sortKeyInvoice b ≤ sortKeyInvoice a)

def expenseLe (a b : ExpenseDoc) : Bool := decide (sortKeyExpense b ≤ sortKeyExpense a)

def sortedInvoices (docs : List InvoiceDoc) : List InvoiceDoc :=
  docs.mergeSort invoiceLe

def sortedExpenses (docs : List ExpenseDoc) : List ExpenseDoc :=
  docs.mergeSort expenseLe

/-- Handler of `GET /api/invoices`: sort all fetched invoices descending by key and
return the first `limit`. -/
def list_invoices (docs : List InvoiceDoc) (limit : ℕ) : List InvoiceDoc :=
  (sortedInvoices docs).take limit

/-- Handler of `GET /api/expenses`. -/
def list_expenses (docs : List ExpenseDoc) (limit : ℕ) : List ExpenseDoc :=
  (sortedExpenses docs).take limit

/-- One month bucket of the monthly report, six zero-initialised
accumulators. -/
structure Bucket where
  revenue_ex_vat : ℚ := 0
  revenue_vat : ℚ := 0
  revenue_inc_vat : ℚ := 0
  expenses_ex_vat : ℚ := 0
  expenses_vat : ℚ := 0
  expenses_inc_vat : ℚ := 0
deriving DecidableEq

def Bucket.zero : Bucket := {}

/-- One iteration of the invoice loop of `monthly_report`: resolve the
issue date, skip on failure or year mismatch, otherwise add the invoice's
totals into its month's bucket. -/
def addInvoice (year : ℤ) (months : ℕ → Bucket) (inv : InvoiceDoc) : ℕ → Bucket :=
  match resolveDate inv.issue_date with
  | none => months
  | some d =>
    if d.year ≠ year then months
    else fun m =>
      if m = d.month then
        { months m with
          revenue_ex_vat := (months m).revenue_ex_vat + invEx inv
          revenue_vat := (months m).revenue_vat + invVat inv
          revenue_inc_vat := (months m).revenue_inc_vat + (invEx inv + invVat inv) }
      else months m

/-- One iteration of the expense loop of `monthly_report`. -/
def addExpense (year : ℤ) (months : ℕ → Bucket) (ex : ExpenseDoc) : ℕ → Bucket :=
  match resolveDate ex.expense_date with
  | none => months
  | some d =>
    if d.year ≠ year then months
    else fun m =>
      if m = d.month then
        { months m with
          expenses_ex_vat := (months m).expenses_ex_vat + ex.amount_ex_vat.getD 0
          expenses_vat := (months m).expenses_vat + expenseVat ex
          expenses_inc_vat :=
            (months m).expenses_inc_vat + (ex.amount_ex_vat.getD 0 + expenseVat ex) }
      else months m

/-- One entry of the monthly report's `months` list. -/
structure MonthEntry where
  month : ℕ
  revenue_ex_vat : ℚ
  revenue_vat : ℚ
  revenue_inc_vat : ℚ
  expenses_ex_vat : ℚ
  expenses_vat : ℚ
  expenses_inc_vat : ℚ
deriving DecidableEq

structure MonthlyReport where
  year : ℤ
  months : List MonthEntry
deriving DecidableEq

/-- Handler of `GET /api/reports/monthly`: accumulate invoices then expenses into the
12 month buckets and emit the entries for months 1–12 with every value
rounded to 2 decimal places. -/
def monthly_report (year : ℤ) (invoices : List InvoiceDoc) (expenses : List ExpenseDoc) :
    MonthlyReport :=
  let months0 : ℕ → Bucket := fun _ => Bucket.zero
  let months1 := invoices.foldl (addInvoice year) months0
  let months2 := expenses.foldl (addExpense year) months1
  { year := year
    months := (List.range 12).map (fun i =>
      { month := i + 1
        revenue_ex_vat := round2 (months2 (i + 1)).revenue_ex_vat
        revenue_vat := round2 (months2 (i + 1)).revenue_vat
        revenue_inc_vat := round2 (months2 (i + 1)).revenue_inc_vat
        expenses_ex_vat := round2 (months2 (i + 1)).expenses_ex_vat
        expenses_vat := round2 (months2 (i + 1)).expenses_vat
        expenses_inc_vat := round2 (months2 (i + 1)).expenses_inc_vat }) }

/-- A stored user document. Timestamps are abstracted to a tick count. -/
structure UserDoc where
  name : String
  email : String
  hashed_password : String
  is_active : Bool
  created_at : ℕ
  updated_at : ℕ
deriving DecidableEq

/-- The signup request body (`UserCreate`). -/
structure UserCreate where
  name : String
  email : String
  password : String
deriving DecidableEq

/-- The public user view (`UserOut`). -/
structure UserOut where
  name : String
  email : String
deriving DecidableEq

/-- Models `get_documents("user", \x7b"email": e\x7d, limit=1)`: the documents of
the `user` collection whose `email` equals `e` (case-sensitive), capped at
`limit`. -/
def findUsersByEmail (users : List UserDoc) (e : String) (limit : ℕ) : List UserDoc :=
  (users.filter (fun u => u.email = e)).take limit

/-- Handler of `POST /auth/signup`: reject a duplicate email with a 400, otherwise
append one new user document with a hashed password and return the public
view.  The password hash (bcrypt, external) is a parameter; the result
pairs the resulting user collection with the HTTP outcome. -/
def signup (hash : String → String) (now : ℕ) (users : List UserDoc) (req : UserCreate) :
    List UserDoc × Except ℕ UserOut :=
  if findUsersByEmail users req.email 1 ≠ [] then
    (users, .error 400)
  else
    (users ++ [{ name := req.name, email := req.email,
                 hashed_password := hash req.password,
                 is_active := true, created_at := now, updated_at := now }],
     .ok { name := req.name, email := req.email })

/-- The decoded claims set of a bearer token; `sub` is
`payload.get("sub")`. -/
structure Payload where
  sub : Option String
deriving DecidableEq

/-- Dependency `get_current_user`: no credential resolves to no user; a credential is
decoded with `jwt.decode` (signature and expiration verification by the
external jose library, abstracted as `decodeToken`, `none` modelling
`JWTError`); a payload without `sub` resolves to no user; otherwise the
first user found by email lookup, or no user. -/
def get_current_user (decodeToken : String → Option Payload) (users : List UserDoc)
    (credentials : Option String) : Option UserDoc :=
  match credentials with
  | none => none
  | some token =>
    match decodeToken token with
    | none => none
    | some payload =>
      match payload.sub with
      | none => none
      | some email => (findUsersByEmail users email 1).head?

/-- A sample token decoder used to exercise `get_current_user` on concrete
inputs: one token carrying a subject claim, one carrying none, all others
failing verification. -/
def sampleDecode : String → Option Payload := fun t =>
  if t = "good" then some ⟨some "a@b.nl"⟩
  else if t = "nosub" then some ⟨none⟩
  else none

/-! Helper lemmas. -/

/-- The hand-rolled floor agrees with Mathlib's floor on `ℚ`. -/
theorem floorQ_eq (q : ℚ) : floorQ q = ⌊q⌋ := Rat.floor_def.symm

theorem foldl_add_map {α β : Type*} [AddCommMonoid β] (f : α → β) :
    ∀ (l : List α) (b : β), l.foldl (fun a x => a + f x) b = b + (l.map f).sum
  | [], b => by simp
  | x :: l, b => by
    simp only [List.foldl_cons, List.map_cons, List.sum_cons]
    rw [foldl_add_map f l (b + f x), add_assoc]

theorem foldl_add_ite {α : Type*} (p : α → Prop) [DecidablePred p] :
    ∀ (l : List α) (n : ℕ),
      l.foldl (fun a x => a + if p x then 1 else 0) n
        = n + (l.filter (fun x => decide (p x))).length
  | [], n => by simp
  | x :: l, n => by
    simp only [List.foldl_cons, List.filter_cons]
    by_cases h : p x
    · simp only [if_pos h, decide_eq_true h, if_true]
      rw [foldl_add_ite p l]
      simp only [List.length_cons]
      omega
    · simp only [if_neg h, decide_eq_false h, Bool.false_eq_true, if_false, Nat.add_zero]
      rw [foldl_add_ite p l]

theorem foldl_add_ite_not {α : Type*} (p : α → Prop) [DecidablePred p] :
    ∀ (l : List α) (n : ℕ),
      l.foldl (fun a x => a + if p x then 0 else 1) n
        = n + (l.filter (fun x => decide (¬ p x))).length
  | [], n => by simp
  | x :: l, n => by
    simp only [List.foldl_cons, List.filter_cons, decide_not]
    by_cases h : p x
    · simp only [if_pos h, Nat.add_zero, decide_eq_true h, Bool.not_true,
        Bool.false_eq_true, if_false]
      rw [foldl_add_ite_not p l]
      simp only [decide_not]
    · simp only [if_neg h, decide_eq_false h, Bool.not_false, if_true]
      rw [foldl_add_ite_not p l]
      simp only [decide_not, List.length_cons]
      omega

theorem rounded2_round2 (q : ℚ) : Rounded2 (round2 q) := by
  unfold Rounded2 round2
  rw [div_mul_cancel₀]
  · exact Rat.den_intCast _
  · norm_num

theorem take_one_head {α : Type*} (l : List α) : (l.take 1).head? = l.head? := by
  cases l <;> rfl

theorem findUsersByEmail_ne_nil_iff (users : List UserDoc) (e : String) :
    findUsersByEmail users e 1 ≠ [] ↔ ∃ u ∈ users, u.email = e := by
  unfold findUsersByEmail
  constructor
  · intro h
    rcases List.exists_cons_of_ne_nil h with ⟨u, t, hut⟩
    have hu : u ∈ users.filter (fun u => decide (u.email = e)) := by
      have : u ∈ (users.filter (fun u => decide (u.email = e))).take 1 := hut ▸ List.mem_cons_self u t
      exact List.mem_of_mem_take this
    exact ⟨u, (List.mem_filter.mp hu).1, by simpa using (List.mem_filter.mp hu).2⟩
  · intro ⟨u, hu, he⟩
    intro hnil
    have : users.filter (fun u => decide (u.email = e)) = [] := by
      rcases List.take_eq_nil_iff.mp hnil with h | h
      · omega
      · exact h
    have := List.filter_eq_nil_iff.mp this u hu
    simp [he] at this

theorem addInvoice_skip (year : ℤ) (M : ℕ → Bucket) (inv : InvoiceDoc)
    (h : resolveDate inv.issue_date = none
        ∨ ∃ d, resolveDate inv.issue_date = some d ∧ d.year ≠ year) :
    addInvoice year M inv = M := by
  unfold addInvoice
  rcases h with h | ⟨d, hd, hy⟩
  · rw [h]
  · rw [hd]
    simp [hy]

theorem addExpense_skip (year : ℤ) (M : ℕ → Bucket) (ex : ExpenseDoc)
    (h : resolveDate ex.expense_date = none
        ∨ ∃ d, resolveDate ex.expense_date = some d ∧ d.year ≠ year) :
    addExpense year M ex = M := by
  unfold addExpense
  rcases h with h | ⟨d, hd, hy⟩
  · rw [h]
  · rw [hd]
    simp [hy]

theorem addInvoice_congr (year : ℤ) (M : ℕ → Bucket) (a b : InvoiceDoc)
    (hd : a.issue_date = b.issue_date) (he : invEx a = invEx b) (hv : invVat a = invVat b) :
    addInvoice year M a = addInvoice year M b := by
  unfold addInvoice
  simp only [hd, he, hv]

theorem get_dashboard_summary_congr_head (a b : InvoiceDoc) (invs : List InvoiceDoc)
    (exps : List ExpenseDoc) (hs : a.status = b.status)
    (he : invEx a = invEx b) (hv : invVat a = invVat b) :
    get_dashboard_summary (a :: invs) exps = get_dashboard_summary (b :: invs) exps := by
  simp only [get_dashboard_summary, List.foldl_cons, he, hv, hs]

theorem monthly_report_congr_head (year : ℤ) (a b : InvoiceDoc) (invs : List InvoiceDoc)
    (exps : List ExpenseDoc) (hd : a.issue_date = b.issue_date)
    (he : invEx a = invEx b) (hv : invVat a = invVat b) :
    monthly_report year (a :: invs) exps = monthly_report year (b :: invs) exps := by
  simp only [monthly_report, List.foldl_cons,
    addInvoice_congr year (fun _ => Bucket.zero) a b hd he hv]

theorem invEx_cons_zero (s : Option String) (df : DateField) (ca : Option String)
    (it : ItemDoc) (rest : List ItemDoc) (h : itemEx it = 0) :
    invEx { status := s, items := it :: rest, issue_date := df, created_at := ca }
      = invEx { status := s, items := rest, issue_date := df, created_at := ca } := by
  simp only [invEx, List.foldl_cons, h, add_zero]

theorem invVat_cons_zero (s : Option String) (df : DateField) (ca : Option String)
    (it : ItemDoc) (rest : List ItemDoc) (h : itemVat it = 0) :
    invVat { status := s, items := it :: rest, issue_date := df, created_at := ca }
      = invVat { status := s, items := rest, issue_date := df, created_at := ca } := by
  simp only [invVat, List.foldl_cons, h, add_zero]

/-! Claim theorems. -/

/-- C1: in the dashboard summary an invoice counts toward `paid_invoices`
iff its status equals exactly "betaald" and toward `open_invoices`
otherwise, while its line-item revenue is accumulated into
`revenue_ex_vat` / `revenue_vat` regardless of status; on the spec's
example the summary is paid=1, open=1, revenue 60.00 / 12.60 / 72.60. -/
theorem dashboard_status_partition_and_revenue
    (invoices : List InvoiceDoc) (expenses : List ExpenseDoc) :
    (get_dashboard_summary invoices expenses).paid_invoices
        = (invoices.filter (fun inv => inv.status = some "betaald")).length
    ∧ (get_dashboard_summary invoices expenses).open_invoices
        = (invoices.filter (fun inv => ¬ inv.status = some "betaald")).length
    ∧ (get_dashboard_summary invoices expenses).revenue_ex_vat
        = round2 ((invoices.map invEx).sum)
    ∧ (get_dashboard_summary invoices expenses).revenue_vat
        = round2 ((invoices.map invVat).sum)
    ∧ get_dashboard_summary
        [{ status := some "betaald", items := [⟨some 1, some 50, some 21⟩],
           issue_date := .absent, created_at := none },
         { status := some "concept", items := [⟨some 1, some 10, some 21⟩],
           issue_date := .absent, created_at := none }] []
        = { revenue_ex_vat := 60, revenue_vat := 63/5, revenue_inc_vat := 363/5,
            expenses_ex_vat := 0, expenses_vat := 0, expenses_inc_vat := 0,
            open_invoices := 1, paid_invoices := 1 } := by
  refine ⟨?_, ?_, ?_, ?_, ?_⟩
  · simp only [get_dashboard_summary]
    rw [foldl_add_ite (fun inv => inv.status = some "betaald") invoices 0, Nat.zero_add]
  · simp only [get_dashboard_summary]
    rw [foldl_add_ite_not (fun inv => inv.status = some "betaald") invoices 0, Nat.zero_add]
  · simp only [get_dashboard_summary]
    rw [foldl_add_map invEx invoices 0, zero_add]
  · simp only [get_dashboard_summary]
    rw [foldl_add_map invVat invoices 0, zero_add]
  · norm_num [get_dashboard_summary, invEx, invVat, itemEx, itemVat,
      round2, roundHalfEven, floorQ_eq]
    decide

/-- C2: per item `line_excl = quantity × unit_price` and
`line_vat = line_excl × (vat_rate / 100)`; an invoice's excl-VAT and VAT
totals are the sums over its items; the invoice with single item
(quantity 2, unit price 100, VAT 21) totals 200.00 excl and 42.00 VAT. -/
theorem line_item_math (q u r : ℚ) (it : ItemDoc) (inv : InvoiceDoc) :
    itemEx { quantity := some q, unit_price := some u, vat_rate := some r } = q * u
    ∧ itemVat { quantity := some q, unit_price := some u, vat_rate := some r }
        = (q * u) * (r / 100)
    ∧ itemVat it = itemEx it * ((it.vat_rate.getD 21) / 100)
    ∧ invEx inv = (inv.items.map itemEx).sum
    ∧ invVat inv = (inv.items.map itemVat).sum
    ∧ invEx { status := none, items := [⟨some 2, some 100, some 21⟩],
              issue_date := .absent, created_at := none } = 200
    ∧ invVat { status := none, items := [⟨some 2, some 100, some 21⟩],
               issue_date := .absent, created_at := none } = 42 := by
  refine ⟨rfl, rfl, rfl, ?_, ?_, ?_, ?_⟩
  · rw [invEx, foldl_add_map itemEx inv.items 0, zero_add]
  · rw [invVat, foldl_add_map itemVat inv.items 0, zero_add]
  · norm_num [invEx, itemEx]
  · norm_num [invVat, invEx, itemEx, itemVat]

/-- C3 counterexample: for the invoice with the single item
(quantity 1, unit price 0.004, VAT 100%) both rounded components are 0.00
but the returned `revenue_inc_vat` is 0.01, so the claim that the inc-VAT
output equals the sum of the two rounded components is false. -/
theorem dashboard_inc_vat_not_sum_of_rounded :
    ¬ ((get_dashboard_summary
          [{ status := some "betaald", items := [⟨some 1, some (1/250), some 100⟩],
             issue_date := .absent, created_at := none }] []).revenue_inc_vat
        = (get_dashboard_summary
            [{ status := some "betaald", items := [⟨some 1, some (1/250), some 100⟩],
               issue_date := .absent, created_at := none }] []).revenue_ex_vat
          + (get_dashboard_summary
              [{ status := some "betaald", items := [⟨some 1, some (1/250), some 100⟩],
                 issue_date := .absent, created_at := none }] []).revenue_vat) := by
  norm_num [get_dashboard_summary, invEx, invVat, itemEx, itemVat,
    round2, roundHalfEven, floorQ_eq]

/-- C3 as amended: all six currency outputs of the dashboard summary are
rounded to 2 decimal places, and the inc-VAT outputs are computed by
rounding the sum of the unrounded accumulators (not by summing the two
already-rounded components). -/
theorem dashboard_rounding (invoices : List InvoiceDoc) (expenses : List ExpenseDoc) :
    Rounded2 (get_dashboard_summary invoices expenses).revenue_ex_vat
    ∧ Rounded2 (get_dashboard_summary invoices expenses).revenue_vat
    ∧ Rounded2 (get_dashboard_summary invoices expenses).revenue_inc_vat
    ∧ Rounded2 (get_dashboard_summary invoices expenses).expenses_ex_vat
    ∧ Rounded2 (get_dashboard_summary invoices expenses).expenses_vat
    ∧ Rounded2 (get_dashboard_summary invoices expenses).expenses_inc_vat
    ∧ (get_dashboard_summary invoices expenses).revenue_inc_vat
        = round2 ((invoices.map invEx).sum + (invoices.map invVat).sum)
    ∧ (get_dashboard_summary invoices expenses).expenses_inc_vat
        = round2 ((expenses.map (fun ex => ex.amount_ex_vat.getD 0)).sum
            + (expenses.map expenseVat).sum) := by
  refine ⟨rounded2_round2 _, rounded2_round2 _, rounded2_round2 _,
    rounded2_round2 _, rounded2_round2 _, rounded2_round2 _, ?_, ?_⟩
  · simp only [get_dashboard_summary]
    rw [foldl_add_map invEx invoices 0, foldl_add_map invVat invoices 0,
      zero_add, zero_add]
  · simp only [get_dashboard_summary]
    rw [foldl_add_map (fun ex => ex.amount_ex_vat.getD 0) expenses 0,
      foldl_add_map expenseVat expenses 0, zero_add, zero_add]

/-- C4: an invoice or expense whose date field is missing, unparseable or
of a different year contributes nothing to any bucket of the monthly
report, raises no error, and leaves the totals of the other documents
unchanged. -/
theorem monthly_report_skips_bad_dates (year : ℤ)
    (pre post invoices : List InvoiceDoc) (expenses epre epost : List ExpenseDoc)
    (inv : InvoiceDoc) (ex : ExpenseDoc)
    (hinv : resolveDate inv.issue_date = none
        ∨ ∃ d, resolveDate inv.issue_date = some d ∧ d.year ≠ year)
    (hex : resolveDate ex.expense_date = none
        ∨ ∃ d, resolveDate ex.expense_date = some d ∧ d.year ≠ year) :
    monthly_report year (pre ++ inv :: post) expenses
        = monthly_report year (pre ++ post) expenses
    ∧ monthly_report year invoices (epre ++ ex :: epost)
        = monthly_report year invoices (epre ++ epost) := by
  constructor
  · have h1 : (pre ++ inv :: post).foldl (addInvoice year) (fun _ => Bucket.zero)
        = (pre ++ post).foldl (addInvoice year) (fun _ => Bucket.zero) := by
      rw [List.foldl_append, List.foldl_append, List.foldl_cons,
        addInvoice_skip year _ inv hinv]
    simp only [monthly_report, h1]
  · have h2 : ∀ M : ℕ → Bucket, (epre ++ ex :: epost).foldl (addExpense year) M
        = (epre ++ epost).foldl (addExpense year) M := by
      intro M
      rw [List.foldl_append, List.foldl_append, List.foldl_cons,
        addExpense_skip year _ ex hex]
    simp only [monthly_report, h2]

/-- C4 witness at a concrete input: an invoice with a missing issue date
and an expense with a missing expense date are skipped. -/
theorem monthly_report_skips_bad_dates_witness :
    monthly_report 2025
        ([] ++ ({ status := none, items := [], issue_date := .absent, created_at := none } : InvoiceDoc) :: []) []
        = monthly_report 2025 ([] ++ []) []
    ∧ monthly_report 2025 []
        ([] ++ ({ amount_ex_vat := some 5, vat_rate := none, expense_date := .absent, created_at := none } : ExpenseDoc) :: [])
        = monthly_report 2025 [] ([] ++ []) :=
  monthly_report_skips_bad_dates 2025 [] [] [] [] [] []
    { status := none, items := [], issue_date := .absent, created_at := none }
    { amount_ex_vat := some 5, vat_rate := none, expense_date := .absent, created_at := none }
    (Or.inl rfl) (Or.inl rfl)

/-- C5: the monthly report consists of the requested year and exactly 12
month entries with month numbers 1 through 12 in ascending order, every
bucket value rounded to 2 decimal places. -/
theorem monthly_report_shape (year : ℤ)
    (invoices : List InvoiceDoc) (expenses : List ExpenseDoc) :
    (monthly_report year invoices expenses).year = year
    ∧ (monthly_report year invoices expenses).months.length = 12
    ∧ (monthly_report year invoices expenses).months.map (fun e => e.month)
        = [1, 2, 3, 4, 5, 6, 7, 8, 9, 10, 11, 12]
    ∧ (monthly_report year invoices expenses).months.Forall (fun e =>
        Rounded2 e.revenue_ex_vat ∧ Rounded2 e.revenue_vat
        ∧ Rounded2 e.revenue_inc_vat ∧ Rounded2 e.expenses_ex_vat
        ∧ Rounded2 e.expenses_vat ∧ Rounded2 e.expenses_inc_vat) := by
  refine ⟨rfl, rfl, rfl, ?_⟩
  rw [List.forall_iff_forall_mem]
  intro e he
  simp only [monthly_report, List.mem_map] at he
  obtain ⟨i, _, rfl⟩ := he
  exact ⟨rounded2_round2 _, rounded2_round2 _, rounded2_round2 _,
    rounded2_round2 _, rounded2_round2 _, rounded2_round2 _⟩

/-- C6: the listing `limit` parameter defaults to 20, any value outside
[1, 200] (such as 0 or 500) is rejected by validation before the handler
runs, 200 is accepted, and the handlers return at most `limit` items. -/
theorem listing_limit_validation (docs : List InvoiceDoc) (edocs : List ExpenseDoc)
    (n : ℕ) (v : ℤ) (hv : ¬(1 ≤ v ∧ v ≤ 200)) :
    validateLimit none = .ok 20
    ∧ validateLimit (some 0) = .error ()
    ∧ validateLimit (some 500) = .error ()
    ∧ validateLimit (some 200) = .ok 200
    ∧ validateLimit (some v) = .error ()
    ∧ (list_invoices docs n).length ≤ n
    ∧ (list_expenses edocs n).length ≤ n := by
  refine ⟨rfl, rfl, rfl, rfl, ?_, ?_, ?_⟩
  · simp [validateLimit, hv]
  · exact List.length_take_le n _
  · exact List.length_take_le n _

/-- C6 witness at a concrete input: limit 500 is rejected and the invoice
listing of a one-document collection with limit 20 has at most 20 items. -/
theorem listing_limit_validation_witness :
    validateLimit none = .ok 20
    ∧ validateLimit (some 0) = .error ()
    ∧ validateLimit (some 500) = .error ()
    ∧ validateLimit (some 200) = .ok 200
    ∧ validateLimit (some 500) = .error ()
    ∧ (list_invoices [(⟨none, [], .absent, none⟩ : InvoiceDoc)] 20).length ≤ 20
    ∧ (list_expenses [] 20).length ≤ 20 :=
  listing_limit_validation [(⟨none, [], .absent, none⟩ : InvoiceDoc)]
    [] 20 500 (by decide)

/-- C7: the invoice listing sorts all fetched documents by the pair
(creation timestamp, then issue date) descending, both compared as text;
a document with absent values carries the minimal key, hence sorts first
when the order is reversed; the first `limit` elements are returned. -/
theorem invoice_listing_order (docs : List InvoiceDoc) (limit : ℕ) (x y : InvoiceDoc)
    (hca : x.created_at = none) (hid : x.issue_date = DateField.absent) :
    list_invoices docs limit = (sortedInvoices docs).take limit
    ∧ (sortedInvoices docs).Perm docs
    ∧ (sortedInvoices docs).Pairwise (fun a b => sortKeyInvoice b ≤ sortKeyInvoice a)
    ∧ ((sortedInvoices docs).reverse).Pairwise
        (fun a b => sortKeyInvoice a ≤ sortKeyInvoice b)
    ∧ sortKeyInvoice x ≤ sortKeyInvoice y := by
  have htrans : ∀ a b c : InvoiceDoc,
      invoiceLe a b = true → invoiceLe b c = true → invoiceLe a c = true := by
    intro a b c hab hbc
    simp only [invoiceLe, decide_eq_true_eq] at hab hbc ⊢
    exact le_trans hbc hab
  have htotal : ∀ a b : InvoiceDoc, (invoiceLe a b || invoiceLe b a) = true := by
    intro a b
    simp only [invoiceLe, Bool.or_eq_true, decide_eq_true_eq]
    exact le_total _ _
  have hpair : (sortedInvoices docs).Pairwise
      (fun a b => sortKeyInvoice b ≤ sortKeyInvoice a) := by
    have hs := List.sorted_mergeSort htrans htotal docs
    exact hs.imp (fun h => by simpa [invoiceLe, decide_eq_true_eq] using h)
  have hempty : ∀ s : String, "" ≤ s :=
    fun s => String.le_iff_toList_le.mpr List.nil_le
  refine ⟨rfl, List.mergeSort_perm docs invoiceLe, hpair,
    List.pairwise_reverse.mpr hpair, ?_⟩
  have hx : sortKeyInvoice x = toLex ("", "") := by
    rw [sortKeyInvoice, hca, hid]
    rfl
  rw [hx, show sortKeyInvoice y
      = toLex (y.created_at.getD "", dateFieldStr y.issue_date) from rfl,
    Prod.Lex.le_iff]
  rcases eq_or_ne ("" : String) (y.created_at.getD "") with h | h
  · exact Or.inr ⟨h, hempty _⟩
  · exact Or.inl (lt_of_le_of_ne (hempty _) h)

/-- C7 witness at a concrete input: the listing equals the truncated sort,
and the all-absent document's key is below a populated document's key. -/
theorem invoice_listing_order_witness :
    list_invoices [] 0 = (sortedInvoices []).take 0
    ∧ (sortedInvoices []).Perm []
    ∧ (sortedInvoices []).Pairwise (fun a b => sortKeyInvoice b ≤ sortKeyInvoice a)
    ∧ ((sortedInvoices []).reverse).Pairwise
        (fun a b => sortKeyInvoice a ≤ sortKeyInvoice b)
    ∧ sortKeyInvoice ⟨none, [], .absent, none⟩
        ≤ sortKeyInvoice ⟨some "betaald", [], .dateVal ⟨2025, 3, 1⟩, some "2025-03-01 10:00:00"⟩ :=
  invoice_listing_order [] 0 ⟨none, [], .absent, none⟩
    ⟨some "betaald", [], .dateVal ⟨2025, 3, 1⟩, some "2025-03-01 10:00:00"⟩ rfl rfl

/-- C8: signup with an email already on file (case-sensitive equality)
returns the invalid-request error 400 and leaves the user collection
unchanged; otherwise exactly one new user document with a hashed password
is appended and the public view (name, email) is returned. -/
theorem signup_duplicate_and_create (hash : String → String) (now : ℕ)
    (users : List UserDoc) (req : UserCreate) :
    ((∃ u ∈ users, u.email = req.email) →
        signup hash now users req = (users, .error 400))
    ∧ ((∀ u ∈ users, u.email ≠ req.email) →
        signup hash now users req
          = (users ++ [⟨req.name, req.email, hash req.password, true, now, now⟩],
             .ok ⟨req.name, req.email⟩)) := by
  constructor
  · intro h
    have hne : findUsersByEmail users req.email 1 ≠ [] :=
      (findUsersByEmail_ne_nil_iff users req.email).mpr h
    simp [signup, hne]
  · intro h
    have hnil : findUsersByEmail users req.email 1 = [] := by
      by_contra hne
      rcases (findUsersByEmail_ne_nil_iff users req.email).mp hne with ⟨u, hu, he⟩
      exact h u hu he
    simp [signup, hnil]

/-- C8 witness at a concrete input: a duplicate signup is rejected without
touching the collection, and a fresh signup appends one document. -/
theorem signup_duplicate_and_create_witness :
    signup (fun p => p ++ "#h") 7 [⟨"Ann", "a@b.nl", "x", true, 0, 0⟩]
        ⟨"Bob", "a@b.nl", "pw"⟩
      = ([⟨"Ann", "a@b.nl", "x", true, 0, 0⟩], .error 400)
    ∧ signup (fun p => p ++ "#h") 7 [⟨"Ann", "a@b.nl", "x", true, 0, 0⟩]
        ⟨"Bob", "c@d.nl", "pw"⟩
      = ([⟨"Ann", "a@b.nl", "x", true, 0, 0⟩,
          ⟨"Bob", "c@d.nl", "pw" ++ "#h", true, 7, 7⟩],
         .ok ⟨"Bob", "c@d.nl"⟩) := by
  constructor
  · exact (signup_duplicate_and_create (fun p => p ++ "#h") 7
      [⟨"Ann", "a@b.nl", "x", true, 0, 0⟩] ⟨"Bob", "a@b.nl", "pw"⟩).1
      ⟨⟨"Ann", "a@b.nl", "x", true, 0, 0⟩, by simp⟩
  · exact (signup_duplicate_and_create (fun p => p ++ "#h") 7
      [⟨"Ann", "a@b.nl", "x", true, 0, 0⟩] ⟨"Bob", "c@d.nl", "pw"⟩).2
      (by simp)

/-- C9: current-user resolution never raises: no credential resolves to
no user; a credential failing decode/verification resolves to no user; a
payload without a subject claim resolves to no user; otherwise the first
user document found by email lookup is returned, or no user. -/
theorem current_user_resolution (decodeToken : String → Option Payload)
    (users : List UserDoc) (tok e : String) :
    get_current_user decodeToken users none = none
    ∧ (decodeToken tok = none → get_current_user decodeToken users (some tok) = none)
    ∧ (decodeToken tok = some ⟨none⟩ →
        get_current_user decodeToken users (some tok) = none)
    ∧ (decodeToken tok = some ⟨some e⟩ →
        get_current_user decodeToken users (some tok)
          = (users.filter (fun u => u.email = e)).head?) := by
  refine ⟨rfl, ?_, ?_, ?_⟩
  · intro h
    simp [get_current_user, h]
  · intro h
    simp [get_current_user, h]
  · intro h
    simp only [get_current_user, h, findUsersByEmail]
    exact take_one_head _

/-- C9 witness at concrete inputs: absent credential, failed decode,
missing subject, and a successful lookup. -/
theorem current_user_resolution_witness :
    get_current_user sampleDecode [] none = none
    ∧ get_current_user sampleDecode [] (some "bad") = none
    ∧ get_current_user sampleDecode [] (some "nosub") = none
    ∧ get_current_user sampleDecode [⟨"Ann", "a@b.nl", "x", true, 0, 0⟩] (some "good")
        = ([(⟨"Ann", "a@b.nl", "x", true, 0, 0⟩ : UserDoc)].filter
            (fun u => u.email = "a@b.nl")).head? :=
  ⟨(current_user_resolution sampleDecode [] "z" "a@b.nl").1,
   (current_user_resolution sampleDecode [] "bad" "a@b.nl").2.1 rfl,
   (current_user_resolution sampleDecode [] "nosub" "a@b.nl").2.2.1 rfl,
   (current_user_resolution sampleDecode [⟨"Ann", "a@b.nl", "x", true, 0, 0⟩]
      "good" "a@b.nl").2.2.2 rfl⟩

/-- C10: an item document lacking `quantity` or `unit_price` is read with
default 0 (not the schema default 1), so it contributes nothing to either
the dashboard or the monthly-report totals, while a missing `vat_rate`
defaults to 21. -/
theorem item_missing_field_defaults (it : ItemDoc) (year : ℤ)
    (invoices : List InvoiceDoc) (expenses : List ExpenseDoc)
    (s : Option String) (df : DateField) (ca : Option String) (rest : List ItemDoc) :
    (it.quantity = none → itemEx it = 0 ∧ itemVat it = 0)
    ∧ (it.unit_price = none → itemEx it = 0 ∧ itemVat it = 0)
    ∧ (it.vat_rate = none → itemVat it = itemEx it * (21 / 100))
    ∧ (it.quantity = none ∨ it.unit_price = none →
        get_dashboard_summary ((⟨s, it :: rest, df, ca⟩ : InvoiceDoc) :: invoices) expenses
          = get_dashboard_summary ((⟨s, rest, df, ca⟩ : InvoiceDoc) :: invoices) expenses
        ∧ monthly_report year ((⟨s, it :: rest, df, ca⟩ : InvoiceDoc) :: invoices) expenses
          = monthly_report year ((⟨s, rest, df, ca⟩ : InvoiceDoc) :: invoices) expenses) := by
  have hq : it.quantity = none → itemEx it = 0 := by
    intro h
    simp [itemEx, h]
  have hu : it.unit_price = none → itemEx it = 0 := by
    intro h
    simp [itemEx, h]
  have hvz : itemEx it = 0 → itemVat it = 0 := by
    intro h
    simp [itemVat, h]
  refine ⟨fun h => ⟨hq h, hvz (hq h)⟩, fun h => ⟨hu h, hvz (hu h)⟩, ?_, ?_⟩
  · intro h
    simp [itemVat, h]
  · intro h
    have hex : itemEx it = 0 := h.elim hq hu
    have he := invEx_cons_zero s df ca it rest hex
    have hv := invVat_cons_zero s df ca it rest (hvz hex)
    exact ⟨get_dashboard_summary_congr_head _ _ invoices expenses rfl he hv,
           monthly_report_congr_head year _ _ invoices expenses rfl he hv⟩

/-- C10 witness at concrete inputs: items missing quantity, unit price and
VAT rate respectively, and the no-contribution equalities. -/
theorem item_missing_field_defaults_witness :
    (itemEx ⟨none, some 5, some 21⟩ = 0 ∧ itemVat ⟨none, some 5, some 21⟩ = 0)
    ∧ (itemEx ⟨some 5, none, some 21⟩ = 0 ∧ itemVat ⟨some 5, none, some 21⟩ = 0)
    ∧ itemVat ⟨some 5, some 5, none⟩ = itemEx ⟨some 5, some 5, none⟩ * (21 / 100)
    ∧ (get_dashboard_summary [(⟨none, [⟨none, some 5, some 21⟩], .absent, none⟩ : InvoiceDoc)] []
        = get_dashboard_summary [(⟨none, [], .absent, none⟩ : InvoiceDoc)] []
       ∧ monthly_report 2025 [(⟨none, [⟨none, some 5, some 21⟩], .absent, none⟩ : InvoiceDoc)] []
        = monthly_report 2025 [(⟨none, [], .absent, none⟩ : InvoiceDoc)] []) :=
  ⟨(item_missing_field_defaults ⟨none, some 5, some 21⟩ 2025 [] [] none .absent none []).1 rfl,
   (item_missing_field_defaults ⟨some 5, none, some 21⟩ 2025 [] [] none .absent none []).2.1 rfl,
   (item_missing_field_defaults ⟨some 5, some 5, none⟩ 2025 [] [] none .absent none []).2.2.1 rfl,
   (item_missing_field_defaults ⟨none, some 5, some 21⟩ 2025 [] [] none .absent none []).2.2.2
     (Or.inl rfl)⟩

end BGAI
